import Mathlib

/-!
Shallow embedding of `src/tracker.py` (email open-tracking service) and
verification of its specification claims.

Conventions of the embedding:
* Python strings are Lean `String`s; `str.lower()` is `pyLower`,
  `p in s` (substring test) is `strContains s p`, `s.startswith(p)` is
  `pyStartsWith`, `s.replace(a, b)` is `pyReplace`, `s.strip()` is
  `pyTrim`; all are defined over the character list so that closed
  theorems evaluate inside the kernel.
* The HMAC-SHA256 hexdigest with the process-wide secret
  (`hmac.new(HMAC_SECRET.encode(), m.encode(), hashlib.sha256).hexdigest()`)
  is abstracted as a parameter `mac : String → String`; theorems about the
  token scheme quantify over `mac`.
* `time.time()` is passed in as an explicit integer `now`.
* Database effects are made explicit: the send-record lookup becomes an
  `Except Unit (Option SendRow)` argument (`Except.error` models a raised
  database exception caught by the handler's `except` block), the event
  insert becomes an `insertOk : Bool` (`false` models a raised insert
  error, or the `ON CONFLICT DO NOTHING` path storing no row).
-/

/-- Substring containment on `List Char`, the semantics of Python's
`needle in hay` used by the code's signature checks. -/
def listContains (needle : List Char) : List Char → Bool
  | [] => needle.isEmpty
  | c :: rest => needle.isPrefixOf (c :: rest) || listContains needle rest

/-- `strContains hay needle` models Python `needle in hay`. -/
def strContains (hay needle : String) : Bool :=
  listContains needle.data hay.data

/-- Python truthiness of an optional string (query parameters default to
`None`; both `None` and the empty string are falsy). -/
def optTruthy : Option String → Bool
  | none => false
  | some s => !s.isEmpty

/-- Split a list of characters at every occurrence of `c`, the semantics
of Python's `str.split(c)` for a one-character separator. -/
def splitCh (c : Char) : List Char → List (List Char)
  | [] => [[]]
  | x :: xs =>
    let r := splitCh c xs
    if x = c then [] :: r
    else
      match r with
      | y :: ys => (x :: y) :: ys
      | [] => [[x]]

/-- `token.split(":")` from `verify_sender_token`. -/
def pySplitColon (s : String) : List String :=
  (splitCh ':' s.data).map (fun l => String.mk l)

/-- Value of a list of decimal digit characters. -/
def digitsToNat (l : List Char) : Nat :=
  l.foldl (fun a c => a * 10 + (c.toNat - 48)) 0

/-- Python `int(s)` on a string: an optional sign followed by at least one
decimal digit (whitespace/underscore tolerance of CPython is not needed
here; the timestamps the code produces are plain digit strings).  `none`
models the `ValueError` that `verify_sender_token` catches. -/
def pyParseInt (s : String) : Option Int :=
  match s.data with
  | [] => none
  | '-' :: rest =>
    if !rest.isEmpty && rest.all Char.isDigit then some (-(digitsToNat rest : Int)) else none
  | '+' :: rest =>
    if !rest.isEmpty && rest.all Char.isDigit then some ((digitsToNat rest : Int)) else none
  | l =>
    if l.all Char.isDigit then some ((digitsToNat l : Int)) else none

/-- `generate_sender_token` (tracker.py lines 42-51): the token is
`timestamp:signature` where the signature is the HMAC hexdigest of
`sender_email:track_id:timestamp`.  The caller supplies the timestamp
string (Python defaults it to `str(int(time.time()))`). -/
def generate_sender_token (mac : String → String) (sender_email track_id timestamp : String) : String :=
  timestamp ++ ":" ++ mac (sender_email ++ ":" ++ track_id ++ ":" ++ timestamp)

/-- `verify_sender_token` (tracker.py lines 54-68): split the token into
exactly two parts (any other shape raises `ValueError`, caught and turned
into `False`), parse the timestamp (failure likewise becomes `False`),
reject when `now - timestamp > max_age`, then compare the supplied
signature against the recomputed one (`hmac.compare_digest`, i.e.
equality). -/
def verify_sender_token (mac : String → String) (token sender_email track_id : String)
    (max_age : Int) (now : Int) : Bool :=
  match pySplitColon token with
  | [timestamp_str, signature] =>
    match pyParseInt timestamp_str with
    | some timestamp =>
      if now - timestamp > max_age then false
      else if signature = mac (sender_email ++ ":" ++ track_id ++ ":" ++ timestamp_str) then true
      else false
    | none => false
  | _ => false

lemma splitCh_cons (c x : Char) (xs : List Char) :
    splitCh c (x :: xs) =
      if x = c then [] :: splitCh c xs
      else
        match splitCh c xs with
        | y :: ys => (x :: y) :: ys
        | [] => [[x]] := rfl

lemma splitCh_not_mem (c : Char) (b : List Char) (hb : c ∉ b) : splitCh c b = [b] := by
  induction b with
  | nil => rfl
  | cons x xs ih =>
    have hx : x ≠ c := fun h => hb (h ▸ List.mem_cons_self x xs)
    have hxs : c ∉ xs := fun h => hb (List.mem_cons_of_mem _ h)
    rw [splitCh_cons, if_neg hx, ih hxs]

lemma splitCh_append (c : Char) (a b : List Char) (ha : c ∉ a) :
    splitCh c (a ++ c :: b) = a :: splitCh c b := by
  induction a with
  | nil =>
    show splitCh c (c :: b) = [] :: splitCh c b
    rw [splitCh_cons, if_pos rfl]
  | cons x xs ih =>
    have hx : x ≠ c := fun h => ha (h ▸ List.mem_cons_self x xs)
    have hxs : c ∉ xs := fun h => ha (List.mem_cons_of_mem _ h)
    rw [List.cons_append, splitCh_cons, if_neg hx, ih hxs]

lemma pySplitColon_token (ts sig : String) (hts : ':' ∉ ts.data) (hsig : ':' ∉ sig.data) :
    pySplitColon (ts ++ ":" ++ sig) = [ts, sig] := by
  cases ts with
  | mk l1 =>
    cases sig with
    | mk l2 =>
      have hdata : ((String.mk l1) ++ ":" ++ (String.mk l2)).data = l1 ++ ':' :: l2 := by
        show (l1 ++ [':']) ++ l2 = l1 ++ ':' :: l2
        rw [List.append_assoc]
        rfl
      unfold pySplitColon
      rw [hdata, splitCh_append ':' l1 l2 hts, splitCh_not_mem ':' l2 hsig]
      rfl

lemma verify_eq_of_split (mac : String → String) (token email trackId : String)
    (maxAge now : Int) (ts sig : String) (h : pySplitColon token = [ts, sig]) :
    verify_sender_token mac token email trackId maxAge now =
      (match pyParseInt ts with
       | some timestamp =>
         if now - timestamp > maxAge then false
         else if sig = mac (email ++ ":" ++ trackId ++ ":" ++ ts) then true
         else false
       | none => false) := by
  unfold verify_sender_token
  rw [h]

/-- A concrete abstract-HMAC instance used by closed witnesses: its
hexdigest-shaped output never contains a colon. -/
def mac0 : String → String := fun _ => "aaaa"

/-- C8: for every sender email, track id and issue timestamp, the token
produced by `generate_sender_token` verifies successfully when checked
before `issueTime + maxAge` and fails when checked after, for every
abstract HMAC whose output contains no colon (true of hex digests). -/
theorem c8_token_roundtrip (mac : String → String) (email trackId ts : String)
    (tv : Int) (maxAge now : Int)
    (hts : pyParseInt ts = some tv)
    (hcts : ':' ∉ ts.data)
    (hcsig : ':' ∉ (mac (email ++ ":" ++ trackId ++ ":" ++ ts)).data) :
    (now < tv + maxAge →
      verify_sender_token mac (generate_sender_token mac email trackId ts) email trackId maxAge now = true) ∧
    (now > tv + maxAge →
      verify_sender_token mac (generate_sender_token mac email trackId ts) email trackId maxAge now = false) := by
  unfold generate_sender_token
  rw [verify_eq_of_split mac _ email trackId maxAge now ts
    (mac (email ++ ":" ++ trackId ++ ":" ++ ts))
    (pySplitColon_token ts _ hcts hcsig)]
  simp only [hts]
  constructor
  · intro h
    rw [if_neg (by omega)]
    simp
  · intro h
    rw [if_pos (by omega)]

/-- Witness for C8 at concrete inputs: issue time 1000, max age 3600,
checks at 2000 (valid) and 5000 (expired). -/
theorem c8_token_roundtrip_witness :
    verify_sender_token mac0 (generate_sender_token mac0 "e@x.com" "t-1" "1000") "e@x.com" "t-1" 3600 2000 = true ∧
    verify_sender_token mac0 (generate_sender_token mac0 "e@x.com" "t-1" "1000") "e@x.com" "t-1" 3600 5000 = false := by
  constructor
  · exact (c8_token_roundtrip mac0 "e@x.com" "t-1" "1000" 1000 3600 2000 (by decide) (by decide)
      (by decide)).1 (by decide)
  · exact (c8_token_roundtrip mac0 "e@x.com" "t-1" "1000" 1000 3600 5000 (by decide) (by decide)
      (by decide)).2 (by decide)

/-- C9: `verify_sender_token` returns false (it never throws: it is a
total function) whenever the token does not split into exactly two
colon-separated parts, or the timestamp part does not parse as an
integer, or `now - timestamp` exceeds `max_age`, or the supplied
signature segment differs from the recomputed one. -/
theorem c9_verify_rejects (mac : String → String) (token email trackId : String)
    (maxAge now : Int) :
    ((pySplitColon token).length ≠ 2 →
      verify_sender_token mac token email trackId maxAge now = false) ∧
    (∀ ts sig, pySplitColon token = [ts, sig] → pyParseInt ts = none →
      verify_sender_token mac token email trackId maxAge now = false) ∧
    (∀ ts sig tv, pySplitColon token = [ts, sig] → pyParseInt ts = some tv →
      now - tv > maxAge →
      verify_sender_token mac token email trackId maxAge now = false) ∧
    (∀ ts sig, pySplitColon token = [ts, sig] →
      sig ≠ mac (email ++ ":" ++ trackId ++ ":" ++ ts) →
      verify_sender_token mac token email trackId maxAge now = false) := by
  refine ⟨?_, ?_, ?_, ?_⟩
  · intro hlen
    unfold verify_sender_token
    cases h : pySplitColon token with
    | nil => rfl
    | cons a t =>
      cases t with
      | nil => rfl
      | cons b t2 =>
        cases t2 with
        | nil => exact absurd (by rw [h]; rfl) hlen
        | cons c t3 => rfl
  · intro ts sig hsplit hparse
    rw [verify_eq_of_split mac token email trackId maxAge now ts sig hsplit]
    simp only [hparse]
  · intro ts sig tv hsplit hparse hexp
    rw [verify_eq_of_split mac token email trackId maxAge now ts sig hsplit]
    simp only [hparse]
    rw [if_pos hexp]
  · intro ts sig hsplit hne
    rw [verify_eq_of_split mac token email trackId maxAge now ts sig hsplit]
    cases hp : pyParseInt ts with
    | none => simp only [hp]
    | some tv =>
      simp only [hp]
      by_cases hexp : now - tv > maxAge
      · rw [if_pos hexp]
      · rw [if_neg hexp, if_neg hne]

/-- Witness for C9: a token with no colon at all is rejected. -/
theorem c9_verify_rejects_witness :
    verify_sender_token mac0 "notavalidtoken" "e@x.com" "t-1" 3600 2000 = false :=
  (c9_verify_rejects mac0 "notavalidtoken" "e@x.com" "t-1" 3600 2000).1 (by decide)

/-- Python `str.lower()` (ASCII case folding, which is all the code's
inputs use). -/
def pyLower (s : String) : String :=
  String.mk (s.data.map Char.toLower)

/-- Python `str.strip()` on the forwarded-for entry. -/
def pyTrim (s : String) : String :=
  String.mk (((s.data.dropWhile Char.isWhitespace).reverse.dropWhile Char.isWhitespace).reverse)

/-- Python `s.startswith(pre)`. -/
def pyStartsWith (s pre : String) : Bool :=
  pre.data.isPrefixOf s.data

/-- Python `s.replace(pat, rep)`: left-to-right, non-overlapping.
Structural recursion on a fuel argument (each step consumes at least one
input character, so fuel `l.length` is always enough); this keeps the
definition reducible inside the kernel. -/
def listReplaceAux (pat rep : List Char) : Nat → List Char → List Char
  | 0, l => l
  | _ + 1, [] => []
  | fuel + 1, c :: rest =>
    if pat.isPrefixOf (c :: rest) && !pat.isEmpty then
      rep ++ listReplaceAux pat rep fuel (rest.drop (pat.length - 1))
    else
      c :: listReplaceAux pat rep fuel rest

/-- String wrapper for `listReplaceAux` with sufficient fuel. -/
def pyReplace (s pat rep : String) : String :=
  String.mk (listReplaceAux pat.data rep.data s.data.length s.data)

/-- A curly brace character, written by code point to keep brace
characters out of the source text. -/
def isBraceChar (c : Char) : Bool :=
  c = Char.ofNat 123 || c = Char.ofNat 125

/-- Hexadecimal digit (either case), as accepted by `int(hex, 16)`. -/
def isHexChar (c : Char) : Bool :=
  c.isDigit || ('a' ≤ c && c ≤ 'f') || ('A' ≤ c && c ≤ 'F')

/-- `valid_uuid` (tracker.py lines 402-407): `uuid.UUID(value)` removes
the `urn:` and `uuid:` markers, strips surrounding braces, removes
hyphens, then requires exactly 32 hexadecimal digits.  (The exotic
leniency of CPython's `int(hex, 16)` around an embedded sign or `0x`
marker is not modelled; no claim depends on such inputs.) -/
def valid_uuid (value : String) : Bool :=
  let h1 := pyReplace (pyReplace value ("urn:") ("")) ("uuid:") ("")
  let h2 := String.mk (((h1.data.dropWhile isBraceChar).reverse.dropWhile isBraceChar).reverse)
  let h3 := pyReplace h2 ("-") ("")
  h3.length == 32 && h3.data.all isHexChar

/-- One dotted-quad octet as accepted by `ipaddress.ip_address`: one to
three decimal digits, no leading zero, value at most 255. -/
def parseOctet (l : List Char) : Option Nat :=
  if !l.isEmpty && l.all Char.isDigit && decide (l.length ≤ 3)
      && (l.length == 1 || l.headD '0' != '0') then
    if digitsToNat l ≤ 255 then some (digitsToNat l) else none
  else none

/-- IPv4 dotted-quad parser for `ipaddress.ip_address`.  The model covers
the IPv4 grammar; every other string (which for the code's inputs means
an unparseable address) is `none`. -/
def parseIPv4 (s : String) : Option (Nat × Nat × Nat × Nat) :=
  match (splitCh '.' s.data).map parseOctet with
  | [some a, some b, some c, some d] => some (a, b, c, d)
  | _ => none

/-- `ipaddress`: IPv4 `is_loopback` (127.0.0.0/8). -/
def ipv4_is_loopback (a : Nat) : Bool :=
  a == 127

/-- `ipaddress`: IPv4 `is_private` (the standard private/special network
list used by CPython's `ipaddress` module). -/
def ipv4_is_private (a b c d : Nat) : Bool :=
  a == 0 || a == 10 || a == 127 ||
  (a == 169 && b == 254) ||
  (a == 172 && decide (16 ≤ b) && decide (b ≤ 31)) ||
  (a == 192 && b == 0 && c == 0 && decide (d ≤ 7)) ||
  (a == 192 && b == 0 && c == 0 && (d == 170 || d == 171)) ||
  (a == 192 && b == 0 && c == 2) ||
  (a == 192 && b == 168) ||
  (a == 198 && (b == 18 || b == 19)) ||
  (a == 198 && b == 51 && c == 100) ||
  (a == 203 && b == 0 && c == 113) ||
  decide (240 ≤ a) ||
  (a == 255 && b == 255 && c == 255 && d == 255)

/-- `ipaddress`: IPv4 `is_reserved` (240.0.0.0/4). -/
def ipv4_is_reserved (a : Nat) : Bool :=
  decide (240 ≤ a)

/-- `ipaddress`: IPv4 `is_link_local` (169.254.0.0/16). -/
def ipv4_is_link_local (a b : Nat) : Bool :=
  a == 169 && b == 254

/-- `ipaddress`: IPv4 `is_multicast` (224.0.0.0/4). -/
def ipv4_is_multicast (a : Nat) : Bool :=
  decide (224 ≤ a) && decide (a ≤ 239)

/-- `is_internal_ip` (tracker.py lines 71-87): parse the address, return
the disjunction of the `ipaddress` range predicates and the literal
string checks, and treat a parse failure (`ValueError`) as internal.
The model covers IPv4 dotted-quad addresses (the only shape the claims
and the code's own examples exercise); other shapes fall into the
unparseable branch. -/
def is_internal_ip (ip : String) : Bool :=
  match parseIPv4 ip with
  | none => true
  | some (a, b, c, d) =>
    ipv4_is_loopback a || ipv4_is_private a b c d || ipv4_is_reserved a ||
    ipv4_is_link_local a b || ipv4_is_multicast a ||
    pyStartsWith ip ("127.") || pyStartsWith ip ("10.") || pyStartsWith ip ("192.168.") ||
    (pyStartsWith ip ("172.") && decide (16 ≤ b) && decide (b ≤ 31)) ||
    (ip == "0.0.0.0")

/-- `is_google_proxy_request` (tracker.py lines 90-92). -/
def is_google_proxy_request (ua : String) : Bool :=
  [ "googleimageproxy", "ggpht.com", "imageproxy" ].any (fun p => strContains ua p)

/-- `is_google_scanner_ip` (tracker.py lines 94-99): the 72.14.x.x
scanner range; 66.249.x.x was intentionally removed because it serves
real mobile opens. -/
def is_google_scanner_ip (ip : String) : Bool :=
  pyStartsWith ip ("72.14.")

/-- `is_gmail_sent_view` (tracker.py lines 101-105). -/
def is_gmail_sent_view (referer : String) : Bool :=
  if !strContains referer ("mail.google.com") then false
  else
    [ "in%3Asent", "in:sent", "/#sent", "#sent", "label/sent", "mail/sent",
      "sent%20mail", "qm_sent", "ib_sent" ].any (fun ind => strContains referer ind)

/-- A row of the `sends` table (`SendRecord`). -/
structure SendRow where
  trackId : String
  recipientEmail : String
  gmailMessageId : Option String
  gmailThreadId : Option String
  senderEmail : Option String
  senderIp : Option String
  subject : Option String
  createdAt : Int
deriving Repr, DecidableEq

/-- A row of the `events` table.  `createdAt` models the database's
row-creation timestamp used by `ORDER BY created_at`; `duration` is
`NULL` until the post-fetch update patches it. -/
structure EventRow where
  trackId : String
  eventType : String
  ipAddress : String
  userAgent : String
  isBot : Bool
  viaProxy : Bool
  country : Option String
  city : Option String
  os : String
  browser : String
  device : String
  referrer : String
  duration : Option Int
  createdAt : Int
deriving Repr, DecidableEq

/-- The JSON payload accepted by `/_register_send` after its
required-field check (`track_id` and `recipient_email` present). -/
structure RegisterPayload where
  trackId : String
  recipientEmail : String
  gmailMessageId : Option String
  gmailThreadId : Option String
  senderEmail : Option String
  subject : Option String
deriving Repr, DecidableEq

/-- `register_send` (tracker.py lines 152-170): the row stored for
`p.trackId` after the upsert.  On first insert every payload field is
stored together with the request's peer address as `sender_ip`; on
conflict, `recipient_email`, `gmail_message_id` and `gmail_thread_id`
are overwritten with the new values while `sender_email`, `sender_ip`
and `subject` use `COALESCE(EXCLUDED.x, sends.x)`. -/
def register_send (old : Option SendRow) (p : RegisterPayload) (senderIp : String) (now : Int) : SendRow :=
  match old with
  | none =>
    { trackId := p.trackId
      recipientEmail := p.recipientEmail
      gmailMessageId := p.gmailMessageId
      gmailThreadId := p.gmailThreadId
      senderEmail := p.senderEmail
      senderIp := some senderIp
      subject := p.subject
      createdAt := now }
  | some s =>
    { s with
      recipientEmail := p.recipientEmail
      gmailMessageId := p.gmailMessageId
      gmailThreadId := p.gmailThreadId
      senderEmail := p.senderEmail <|> s.senderEmail
      senderIp := some senderIp <|> s.senderIp
      subject := p.subject <|> s.subject }

/-- The raw fetch context of a `/pixel/{track_id}.png` request: path
segment, query parameters (`None` when absent) and headers. -/
structure PixelRequest where
  trackId : String
  userAgent : Option String
  xForwardedFor : String
  peerIp : String
  referer : Option String
  senderToken : Option String
  senderEmailParam : Option String
deriving Repr, DecidableEq

/-- Enrichment values produced by the external user-agent parser and the
geolocation lookup; they never influence classification. -/
structure Enrichment where
  country : Option String
  city : Option String
  osName : String
  browserName : String
  deviceName : String
deriving Repr, DecidableEq

/-- `ua_string = (request.headers.get("User-Agent") or "").lower()`. -/
def uaLower (req : PixelRequest) : String :=
  pyLower (req.userAgent.getD (""))

/-- `client_ip = xff.split(",")[0].strip() if xff else ip`. -/
def clientIpOf (req : PixelRequest) : String :=
  if req.xForwardedFor.data.isEmpty then req.peerIp
  else pyTrim (String.mk ((splitCh ',' req.xForwardedFor.data).headD []))

/-- `referer = (request.headers.get("Referer") or "").lower()`. -/
def refererLower (req : PixelRequest) : String :=
  pyLower (req.referer.getD (""))

/-- The sender-filtering cascade of the pixel handler
(tracker.py lines 238-249), run only when a send row was found.  Note
the `elif` structure: when a sender token is supplied together with a
stored sender email, the Gmail sent-folder referer check is never
reached, even if the token fails verification. -/
def shouldLogOf (req : PixelRequest) (row : SendRow) (now : Int) (mac : String → String) : Bool :=
  if optTruthy req.senderEmailParam && optTruthy row.senderEmail &&
      (pyLower (req.senderEmailParam.getD ("")) == pyLower (row.senderEmail.getD (""))) then
    false
  else if optTruthy req.senderToken && optTruthy row.senderEmail then
    if verify_sender_token mac (req.senderToken.getD ("")) (row.senderEmail.getD ("")) req.trackId 3600 now then
      false
    else
      true
  else if is_gmail_sent_view (refererLower req) then
    false
  else
    true

/-- The event row the pixel handler inserts (tracker.py lines 251-263):
`is_bot` comes only from the scanner-IP prefix check and a literal
`"bot"` substring test on the lower-cased user agent (line 215),
`via_proxy` from the proxy signature set (line 216). -/
def pixelEvent (req : PixelRequest) (now : Int) (enrich : Enrichment) : EventRow :=
  { trackId := req.trackId
    eventType := "open"
    ipAddress := clientIpOf req
    userAgent := req.userAgent.getD ("")
    isBot := is_google_scanner_ip (clientIpOf req) || strContains (uaLower req) ("bot")
    viaProxy := is_google_proxy_request (uaLower req)
    country := enrich.country
    city := enrich.city
    os := enrich.osName
    browser := enrich.browserName
    device := enrich.deviceName
    referrer := refererLower req
    duration := none
    createdAt := now }

/-- The HTTP response of the pixel endpoint: status, body payload (the
PNG bytes, kept as their hex encoding) and the caching headers set by
the handler. -/
structure PixelResponse where
  statusCode : Nat
  body : String
  cacheControl : Option String
  pragmaHeader : Option String
  expiresHeader : Option String
deriving Repr, DecidableEq

/-- `PIXEL_BYTES` (tracker.py lines 33-37), as the hex string the source
builds them from. -/
def PIXEL_BYTES_HEX : String :=
  "89504E470D0A1A0A0000000D49484452000000010000000108060000001F15C4890000000A49444154789C6360000000020001E221BC330000000049454E44AE426082"

/-- The response every served pixel gets (tracker.py lines 306-311):
the PNG payload with caching disabled. -/
def servedPixelResponse : PixelResponse :=
  { statusCode := 200
    body := PIXEL_BYTES_HEX
    cacheControl := some "no-cache, no-store, must-revalidate, max-age=0"
    pragmaHeader := some "no-cache"
    expiresHeader := some "0" }

/-- The `HTTPException(status_code=404)` raised for a malformed track id
(tracker.py lines 192-193). -/
def notFoundResponse : PixelResponse :=
  { statusCode := 404
    body := ""
    cacheControl := none
    pragmaHeader := none
    expiresHeader := none }

/-- Result of one pixel fetch: the HTTP response plus the event row the
handler persisted (`none` when nothing was stored). -/
structure PixelResult where
  response : PixelResponse
  logged : Option EventRow
deriving Repr, DecidableEq

/-- The `/pixel/{track_id}.png` handler (tracker.py lines 185-311).
`sendLookup` is the result of the send-record query (`Except.error`
models a raised database error, caught by the handler's `except` which
skips logging but still serves the pixel); `insertOk = false` models a
failed insert (also caught) or the `ON CONFLICT DO NOTHING` no-op. -/
def pixel (req : PixelRequest) (mac : String → String) (now : Int) (enrich : Enrichment)
    (sendLookup : Except Unit (Option SendRow)) (insertOk : Bool) : PixelResult :=
  if valid_uuid req.trackId then
    { response := servedPixelResponse
      logged :=
        match sendLookup with
        | Except.error _ => none
        | Except.ok none => none
        | Except.ok (some row) =>
          if shouldLogOf req row now mac && insertOk then some (pixelEvent req now enrich)
          else none }
  else
    { response := notFoundResponse, logged := none }

/-- The pixel handler together with its effect on the events table: the
send row is looked up in `sends` by track id, and a logged event is
appended to `events`. -/
def pixelWithStore (req : PixelRequest) (mac : String → String) (now : Int) (enrich : Enrichment)
    (sends : List SendRow) (events : List EventRow) (insertOk : Bool) :
    PixelResult × List EventRow :=
  let r := pixel req mac now enrich
    (Except.ok (sends.find? (fun s => s.trackId == req.trackId))) insertOk
  (r, events ++ r.logged.toList)

/-- Modelled from the spec: the RateLimiter contract `count(ip,
windowSeconds)` — the number of open events from `ip` whose age at
`now` is within the trailing window.  The source has no rate limiting;
this definition exists only to state the rate-limit claim. -/
def recentOpenCount (events : List EventRow) (ip : String) (now : Int) (windowSeconds : Int) : Nat :=
  (events.filter (fun e =>
    (e.eventType == "open") && (e.ipAddress == ip) && decide (now - e.createdAt ≤ windowSeconds))).length

/-- `(s.gmail_message_id = %s OR s.gmail_thread_id = %s)` — SQL equality
against a possibly NULL column is only true for a non-null match. -/
def keyMatch (s : SendRow) (q : String) : Bool :=
  s.gmailMessageId == some q || s.gmailThreadId == some q

/-- The optional `s.recipient_email = %s` filter: applied only when the
`recipient_email` query parameter is truthy (tracker.py line 343). -/
def recipOk (s : SendRow) (r : Option String) : Bool :=
  !optTruthy r || (s.recipientEmail == r.getD (""))

/-- The join `events e JOIN sends s ON e.track_id = s.track_id` of the
status query, filtered to open events with the given `via_proxy` value,
`is_bot = FALSE`, a key match and the optional recipient filter. -/
def statusJoin (sends : List SendRow) (events : List EventRow) (q : String) (r : Option String)
    (proxyVal : Bool) : List (EventRow × SendRow) :=
  (events.flatMap (fun e => sends.map (fun s => (e, s)))).filter
    (fun p => (p.1.trackId == p.2.trackId) && keyMatch p.2 q && recipOk p.2 r &&
      (p.1.eventType == "open") && (p.1.viaProxy == proxyVal) && (!p.1.isBot))

/-- `get_status` (tracker.py lines 329-399): `read` when a direct
non-bot open exists, or when at least one proxied non-bot open exists
(threshold relaxed from 2 to 1); otherwise `sent` when a send row
matches the key; otherwise `unknown` (served with HTTP 404). -/
def get_status (sends : List SendRow) (events : List EventRow) (q : String) (r : Option String) :
    String :=
  if (statusJoin sends events q r false) ≠ [] then "read"
  else if 1 ≤ (statusJoin sends events q r true).length then "read"
  else if sends.any (fun s => keyMatch s q && recipOk s r) then "sent"
  else "unknown"

/-- Enrichment fixture for closed evaluations: geolocation lookup
yielded nothing and the user-agent parser returned defaults. -/
def enrich0 : Enrichment :=
  { country := none, city := none, osName := "Unknown", browserName := "Unknown", deviceName := "Unknown" }

/-- C1 fixture: a fetch whose client IP is the private address 10.0.0.5,
with no sender signals. -/
def c1_req : PixelRequest :=
  { trackId := "123e4567-e89b-12d3-a456-426614174001"
    userAgent := some "Mozilla/5.0"
    xForwardedFor := ""
    peerIp := "10.0.0.5"
    referer := none
    senderToken := none
    senderEmailParam := none }

/-- C1 fixture: the matching send record. -/
def c1_send : SendRow :=
  { trackId := "123e4567-e89b-12d3-a456-426614174001"
    recipientEmail := "r@example.com"
    gmailMessageId := some "gm-1"
    gmailThreadId := none
    senderEmail := some "s@example.com"
    senderIp := none
    subject := none
    createdAt := 0 }

/-- C1: a fetch from 10.0.0.5 — internal by the code's own
`is_internal_ip` — is nevertheless persisted as an open event:
the pixel handler never consults `is_internal_ip`, so there is no
suppress-internal outcome. -/
theorem c1_internal_ip_event_persisted :
    is_internal_ip "10.0.0.5" = true ∧
    (pixel c1_req mac0 100 enrich0 (Except.ok (some c1_send)) true).logged =
      some (pixelEvent c1_req 100 enrich0) := by
  refine ⟨by decide, by decide⟩

/-- C3 fixture: a fetch arriving 2 seconds after the send, ordinary
browser user agent, ordinary external IP. -/
def c3_req : PixelRequest :=
  { trackId := "123e4567-e89b-12d3-a456-426614174002"
    userAgent := some "Mozilla/5.0 (Windows NT 10.0)"
    xForwardedFor := ""
    peerIp := "93.184.216.34"
    referer := none
    senderToken := none
    senderEmailParam := none }

/-- C3 fixture: the matching send record, created at time 100. -/
def c3_send : SendRow :=
  { trackId := "123e4567-e89b-12d3-a456-426614174002"
    recipientEmail := "r@example.com"
    gmailMessageId := none
    gmailThreadId := none
    senderEmail := some "s@example.com"
    senderIp := none
    subject := none
    createdAt := 100 }

/-- C3: a fetch 2 seconds after the send record's `createdAt` is
persisted with `isBot = false`: the handler fetches `created_at` but
never uses it, so there is no ghost-open window and the elapsed time
does not influence the bot flag. -/
theorem c3_ghost_open_not_flagged :
    ((102 : Int) - c3_send.createdAt < 5) ∧
    (pixel c3_req mac0 102 enrich0 (Except.ok (some c3_send)) true).logged.map EventRow.isBot =
      some false := by
  refine ⟨by decide, by decide⟩

/-- C10: for every UUID-shaped track id, the pixel endpoint answers with
the fixed 1×1 transparent PNG and caching disabled, for every
classification outcome, every send-lookup result (including a raised
database error) and every insert result. -/
theorem c10_pixel_response_constant (req : PixelRequest) (mac : String → String) (now : Int)
    (enrich : Enrichment) (sendLookup : Except Unit (Option SendRow)) (insertOk : Bool)
    (h : valid_uuid req.trackId = true) :
    (pixel req mac now enrich sendLookup insertOk).response = servedPixelResponse := by
  unfold pixel
  rw [if_pos h]

/-- C10 fixture: a pixel request with a valid UUID. -/
def c10_req : PixelRequest :=
  { trackId := "123e4567-e89b-12d3-a456-426614174003"
    userAgent := none
    xForwardedFor := ""
    peerIp := "93.184.216.34"
    referer := none
    senderToken := none
    senderEmailParam := none }

/-- Witness for C10: even with a failed send lookup and a failed insert
the pixel response is served. -/
theorem c10_pixel_response_constant_witness :
    (pixel c10_req mac0 0 enrich0 (Except.error ()) false).response = servedPixelResponse :=
  c10_pixel_response_constant c10_req mac0 0 enrich0 (Except.error ()) false (by decide)

/-- C7 fixture: user agent made of the claimed signature words "spider"
and "checker" but without the substring "bot". -/
def c7_req_spider : PixelRequest :=
  { trackId := "123e4567-e89b-12d3-a456-426614174007"
    userAgent := some "Spider-Checker"
    xForwardedFor := ""
    peerIp := "93.184.216.35"
    referer := none
    senderToken := none
    senderEmailParam := none }

/-- C7 fixture: empty user-agent header. -/
def c7_req_empty : PixelRequest :=
  { trackId := "123e4567-e89b-12d3-a456-426614174007"
    userAgent := some ""
    xForwardedFor := ""
    peerIp := "93.184.216.35"
    referer := none
    senderToken := none
    senderEmailParam := none }

/-- C7 fixture: matching send record. -/
def c7_send : SendRow :=
  { trackId := "123e4567-e89b-12d3-a456-426614174007"
    recipientEmail := "r@example.com"
    gmailMessageId := none
    gmailThreadId := none
    senderEmail := none
    senderIp := none
    subject := none
    createdAt := 0 }

/-- C7 counterexample: a user agent containing the claimed signature
words "spider" and "checker", and an empty user agent, both yield a
persisted event with `isBot = false`: the code's bot test is only the
scanner-IP prefix and the literal substring "bot". -/
theorem c7_counterexample :
    strContains (pyLower ("Spider-Checker")) ("spider") = true ∧
    (pixel c7_req_spider mac0 0 enrich0 (Except.ok (some c7_send)) true).logged.map EventRow.isBot =
      some false ∧
    uaLower c7_req_empty = "" ∧
    (pixel c7_req_empty mac0 0 enrich0 (Except.ok (some c7_send)) true).logged.map EventRow.isBot =
      some false := by
  refine ⟨by decide, by decide, by decide, by decide⟩

/-- C7 amended: the bot flag of every persisted open event equals
`is_google_scanner_ip(client_ip) or ("bot" in ua.lower())`; the empty
user agent and the other claimed signature words play no role. -/
theorem c7_amended (req : PixelRequest) (mac : String → String) (now : Int) (enrich : Enrichment)
    (sendLookup : Except Unit (Option SendRow)) (insertOk : Bool) (e : EventRow)
    (h : (pixel req mac now enrich sendLookup insertOk).logged = some e) :
    e.isBot = (is_google_scanner_ip (clientIpOf req) || strContains (uaLower req) ("bot")) := by
  by_cases hu : valid_uuid req.trackId = true
  · cases sendLookup with
    | error u => simp [pixel, hu] at h
    | ok o =>
      cases o with
      | none => simp [pixel, hu] at h
      | some row =>
        simp only [pixel, hu, if_true, if_pos] at h
        by_cases hl : (shouldLogOf req row now mac && insertOk) = true
        · rw [if_pos hl] at h
          have he : e = pixelEvent req now enrich := (Option.some.injEq _ _ ▸ h).symm
          rw [he]
          rfl
        · rw [if_neg hl] at h
          exact absurd h (by simp)
  · simp [pixel, hu] at h

/-- Witness for C7 amended, at the spider fixture. -/
theorem c7_amended_witness :
    (pixelEvent c7_req_spider 0 enrich0).isBot =
      (is_google_scanner_ip (clientIpOf c7_req_spider) || strContains (uaLower c7_req_spider) ("bot")) :=
  c7_amended c7_req_spider mac0 0 enrich0 (Except.ok (some c7_send)) true
    (pixelEvent c7_req_spider 0 enrich0) (by decide)

/-- C5 fixture: Gmail sent-folder referer plus an invalid sender token. -/
def c5_req : PixelRequest :=
  { trackId := "123e4567-e89b-12d3-a456-426614174005"
    userAgent := some "Mozilla/5.0"
    xForwardedFor := ""
    peerIp := "93.184.216.36"
    referer := some "https://mail.google.com/mail/u/0/#sent"
    senderToken := some "invalid"
    senderEmailParam := none }

/-- C5 fixture: matching send record with a stored sender email. -/
def c5_send : SendRow :=
  { trackId := "123e4567-e89b-12d3-a456-426614174005"
    recipientEmail := "r@example.com"
    gmailMessageId := none
    gmailThreadId := none
    senderEmail := some "sender@example.com"
    senderIp := none
    subject := none
    createdAt := 0 }

/-- C5 counterexample: with a Gmail sent-folder referer AND an invalid
sender token supplied (and a stored sender email), the event IS
persisted: the handler's `elif` chain consumes the token branch and
never reaches the referer check. -/
theorem c5_counterexample :
    is_gmail_sent_view (refererLower c5_req) = true ∧
    verify_sender_token mac0 ("invalid") ("sender@example.com") c5_req.trackId 3600 0 = false ∧
    (pixel c5_req mac0 0 enrich0 (Except.ok (some c5_send)) true).logged.isSome = true := by
  refine ⟨by decide, by decide, by decide⟩

/-- C5 amended: the sent-folder referer suppresses (nothing persisted)
only when the sender-email parameter does not match and no sender token
was supplied alongside a stored sender email; with a failing token
supplied the referer rule is skipped. -/
theorem c5_amended (req : PixelRequest) (row : SendRow) (mac : String → String) (now : Int)
    (enrich : Enrichment) (insertOk : Bool)
    (href : is_gmail_sent_view (refererLower req) = true)
    (hp : (optTruthy req.senderEmailParam && optTruthy row.senderEmail &&
      (pyLower (req.senderEmailParam.getD ("")) == pyLower (row.senderEmail.getD ("")))) = false)
    (ht : (optTruthy req.senderToken && optTruthy row.senderEmail) = false) :
    (pixel req mac now enrich (Except.ok (some row)) insertOk).logged = none := by
  have hsl : shouldLogOf req row now mac = false := by
    unfold shouldLogOf
    rw [hp, ht, href]
    simp
  by_cases hu : valid_uuid req.trackId = true
  · simp [pixel, hu, hsl]
  · simp [pixel, hu]

/-- C5 witness fixture: sent-folder referer, no token, no parameter. -/
def c5w_req : PixelRequest :=
  { trackId := "123e4567-e89b-12d3-a456-426614174005"
    userAgent := some "Mozilla/5.0"
    xForwardedFor := ""
    peerIp := "93.184.216.36"
    referer := some "https://mail.google.com/mail/u/0/#sent"
    senderToken := none
    senderEmailParam := none }

/-- Witness for C5 amended: with only the sent-folder referer present
the fetch is suppressed. -/
theorem c5_amended_witness :
    (pixel c5w_req mac0 0 enrich0 (Except.ok (some c5_send)) true).logged = none :=
  c5_amended c5w_req c5_send mac0 0 enrich0 true (by decide) (by decide) (by decide)

/-- C6 fixture: an existing send row with all optional fields known. -/
def c6_old : SendRow :=
  { trackId := "t-c6"
    recipientEmail := "r@example.com"
    gmailMessageId := some "gm-old"
    gmailThreadId := some "th-old"
    senderEmail := some "s@example.com"
    senderIp := some "1.1.1.1"
    subject := some "hello"
    createdAt := 0 }

/-- C6 fixture: a re-registration payload that omits the gmail ids. -/
def c6_payload : RegisterPayload :=
  { trackId := "t-c6"
    recipientEmail := "r@example.com"
    gmailMessageId := none
    gmailThreadId := none
    senderEmail := none
    subject := none }

/-- C6 counterexample: the upsert overwrites previously non-null
`gmail_message_id` and `gmail_thread_id` with null — those columns use
`EXCLUDED.x` directly, not `COALESCE`. -/
theorem c6_counterexample :
    c6_old.gmailThreadId = some "th-old" ∧ c6_old.gmailMessageId = some "gm-old" ∧
    (register_send (some c6_old) c6_payload "2.2.2.2" 5).gmailThreadId = none ∧
    (register_send (some c6_old) c6_payload "2.2.2.2" 5).gmailMessageId = none := by
  refine ⟨rfl, rfl, rfl, rfl⟩

/-- C6 amended: the merge-by-coalesce protection holds exactly for
`sender_email`, `sender_ip` and `subject` (a previously non-null value
never becomes null, and `sender_ip` is always non-null afterwards),
while `recipient_email`, `gmail_message_id` and `gmail_thread_id` are
plainly overwritten by the new payload. -/
theorem c6_amended (old : SendRow) (p : RegisterPayload) (senderIp : String) (now : Int) :
    ((old.senderEmail.isSome = true →
        (register_send (some old) p senderIp now).senderEmail.isSome = true) ∧
      (old.subject.isSome = true →
        (register_send (some old) p senderIp now).subject.isSome = true) ∧
      (register_send (some old) p senderIp now).senderIp = some senderIp) ∧
    ((register_send (some old) p senderIp now).gmailMessageId = p.gmailMessageId ∧
      (register_send (some old) p senderIp now).gmailThreadId = p.gmailThreadId ∧
      (register_send (some old) p senderIp now).recipientEmail = p.recipientEmail) := by
  refine ⟨⟨?_, ?_, ?_⟩, rfl, rfl, rfl⟩
  · intro h
    unfold register_send
    cases hp : p.senderEmail with
    | none => simpa [hp] using h
    | some v => simp [hp]
  · intro h
    unfold register_send
    cases hp : p.subject with
    | none => simpa [hp] using h
    | some v => simp [hp]
  · unfold register_send
    simp

/-- Witness for C6 amended at the C6 fixture: the stored sender email
survives a payload that omits it. -/
theorem c6_amended_witness :
    (register_send (some c6_old) c6_payload "2.2.2.2" 5).senderEmail.isSome = true :=
  (c6_amended c6_old c6_payload "2.2.2.2" 5).1.1 (by decide)

/-- C4 fixture: the incoming fetch. -/
def c4_req : PixelRequest :=
  { trackId := "123e4567-e89b-12d3-a456-426614174004"
    userAgent := some "Mozilla/5.0"
    xForwardedFor := ""
    peerIp := "93.184.216.50"
    referer := none
    senderToken := none
    senderEmailParam := none }

/-- C4 fixture: matching send record. -/
def c4_send : SendRow :=
  { trackId := "123e4567-e89b-12d3-a456-426614174004"
    recipientEmail := "r@example.com"
    gmailMessageId := none
    gmailThreadId := none
    senderEmail := none
    senderIp := none
    subject := none
    createdAt := 0 }

/-- C4 fixture: one prior open event from the same client IP, inside
the trailing hour. -/
def c4_prior : EventRow :=
  { trackId := "123e4567-e89b-12d3-a456-426614174004"
    eventType := "open"
    ipAddress := "93.184.216.50"
    userAgent := "Mozilla/5.0"
    isBot := false
    viaProxy := false
    country := none
    city := none
    os := ""
    browser := ""
    device := ""
    referrer := ""
    duration := none
    createdAt := 0 }

/-- C4 fixture: 51 prior opens from the same IP. -/
def c4_events : List EventRow := List.replicate 51 c4_prior

/-- C4 counterexample: with 51 prior opens from the same client IP
inside the trailing hour — a count exceeding the claimed ceiling of 50 —
the next fetch is still persisted as a new row: the code has no rate
limiting at all. -/
theorem c4_counterexample :
    recentOpenCount c4_events "93.184.216.50" 10 3600 = 51 ∧
    (pixelWithStore c4_req mac0 10 enrich0 [c4_send] c4_events true).1.logged.isSome = true ∧
    (pixelWithStore c4_req mac0 10 enrich0 [c4_send] c4_events true).2.length = 52 := by
  refine ⟨by decide, by decide, by decide⟩

/-- C4 amended: the persistence decision is independent of prior
events — whatever the events table contains (in particular any number
of recent opens from the same IP), a fetch that passes the sender
filtering appends exactly one new row. -/
theorem c4_amended (req : PixelRequest) (mac : String → String) (now : Int) (enrich : Enrichment)
    (sends : List SendRow) (events : List EventRow) (row : SendRow)
    (hu : valid_uuid req.trackId = true)
    (hf : sends.find? (fun s => s.trackId == req.trackId) = some row)
    (hl : shouldLogOf req row now mac = true) :
    (pixelWithStore req mac now enrich sends events true).2 =
      events ++ [pixelEvent req now enrich] := by
  unfold pixelWithStore
  rw [hf]
  simp [pixel, hu, hl]

/-- Witness for C4 amended at the 51-prior-opens fixture. -/
theorem c4_amended_witness :
    (pixelWithStore c4_req mac0 10 enrich0 [c4_send] c4_events true).2 =
      c4_events ++ [pixelEvent c4_req 10 enrich0] :=
  c4_amended c4_req mac0 10 enrich0 [c4_send] c4_events c4_send (by decide) (by decide) (by decide)

lemma mem_statusJoin (sends : List SendRow) (events : List EventRow) (q : String)
    (r : Option String) (pv : Bool) (e : EventRow) (s : SendRow)
    (he : e ∈ events) (hs : s ∈ sends) (ht : e.trackId = s.trackId) (hk : keyMatch s q = true)
    (hr : recipOk s r = true) (het : e.eventType = "open") (hb : e.isBot = false)
    (hv : e.viaProxy = pv) :
    (e, s) ∈ statusJoin sends events q r pv := by
  unfold statusJoin
  refine List.mem_filter.2 ⟨?_, ?_⟩
  · exact List.mem_flatMap.2 ⟨e, he, List.mem_map.2 ⟨s, hs, rfl⟩⟩
  · simp [ht, hk, hr, het, hb, hv]

/-- C2 fixture: the send record for key "gm-123". -/
def c2_send : SendRow :=
  { trackId := "t-c2"
    recipientEmail := "r@example.com"
    gmailMessageId := some "gm-123"
    gmailThreadId := none
    senderEmail := none
    senderIp := none
    subject := none
    createdAt := 0 }

/-- C2 fixture: one accepted non-bot open with a recorded duration of
90 seconds. -/
def c2_event : EventRow :=
  { trackId := "t-c2"
    eventType := "open"
    ipAddress := "93.184.216.40"
    userAgent := "Mozilla/5.0"
    isBot := false
    viaProxy := false
    country := none
    city := none
    os := ""
    browser := ""
    device := ""
    referrer := ""
    duration := some 90
    createdAt := 10 }

/-- C2 counterexample: a message with a non-bot open of duration 90 s
(exceeding the claimed 60 s threshold) gets status "read", not
"active": `get_status` has no `active` outcome and never reads
`duration`. -/
theorem c2_counterexample :
    (c2_event.duration = some 90 ∧ c2_event.isBot = false ∧ c2_event.eventType = "open") ∧
    get_status [c2_send] [c2_event] "gm-123" none = "read" ∧
    get_status [c2_send] [c2_event] "gm-123" none ≠ "active" := by
  refine ⟨by decide, by decide, by decide⟩

/-- C2 amended: status derivation never returns "active"; any accepted
non-bot open event for the message (whatever its duration, proxied or
not) already yields the top non-trivial status "read". -/
theorem c2_amended (sends : List SendRow) (events : List EventRow) (q : String)
    (r : Option String) :
    get_status sends events q r ≠ "active" ∧
    (∀ e s, e ∈ events → s ∈ sends → e.trackId = s.trackId → keyMatch s q = true →
      recipOk s r = true → e.eventType = "open" → e.isBot = false →
      get_status sends events q r = "read") := by
  constructor
  · unfold get_status
    split
    · decide
    · split
      · decide
      · split
        · decide
        · decide
  · intro e s he hs ht hk hr het hb
    unfold get_status
    by_cases h1 : statusJoin sends events q r false ≠ []
    · rw [if_pos h1]
    · rw [if_neg h1]
      have hvtrue : e.viaProxy = true := by
        cases hvx : e.viaProxy
        · exact absurd (List.ne_nil_of_mem
            (mem_statusJoin sends events q r false e s he hs ht hk hr het hb hvx)) h1
        · rfl
      have hmem := mem_statusJoin sends events q r true e s he hs ht hk hr het hb hvtrue
      have hlen : 1 ≤ (statusJoin sends events q r true).length :=
        List.length_pos.mpr (List.ne_nil_of_mem hmem)
      rw [if_pos hlen]

/-- Witness for C2 amended at the C2 fixture. -/
theorem c2_amended_witness :
    get_status [c2_send] [c2_event] "gm-123" none = "read" :=
  (c2_amended [c2_send] [c2_event] "gm-123" none).2 c2_event c2_send (by decide) (by decide)
    (by decide) (by decide) (by decide) (by decide) (by decide)
